import Mathlib

/-!
# Verification of the qt assertion library's checker semantics

This file gives a shallow embedding, in Lean 4, of the checker layer of the
qt test-helper package (checker.go, iter.go, quicktest.go), together with
theorems settling the specification claims about it.

Modelling conventions:

* Go errors returned by `Check` are modelled by `Option GoErr`: `none` is a
  nil error (success).  The library's three error kinds (plain check
  failure, bad check, the `ErrSilent` sentinel) live in `GoErr`; the file
  `error.go` that defines them is not part of the sources at hand, so that
  type and its helpers are modelled from the spec's error-kind taxonomy.
* A checker's `Check(note func(key, value))` both emits notes and returns an
  error; it is modelled as a pure value `CheckResult`: the ordered list of
  emitted notes plus the returned error.
* Reflection-dependent facts (kinds, nil-ness of a reflected value) enter as
  explicit fields of small record types, one per checker, mirroring exactly
  the reflection calls the source makes.
* External capabilities (the regexp engine, cmp.Diff, codec marshal and
  unmarshal functions) are parameters of the corresponding definitions; a Go
  panic inside such a capability is modelled by `Except.error`.
-/

set_option maxHeartbeats 1000000

namespace qt

/-- Modelled from the spec (error.go is absent from the sources): the three
error kinds of the library — a plain check failure (`errors.New` or
`fmt.Errorf`), a bad-check error (`BadCheckf`, caller misuse), and the
`ErrSilent` sentinel meaning the checker already emitted its diagnostics as
notes. -/
inductive GoErr where
  | failure (msg : String)
  | badCheck (msg : String)
  | silent
deriving DecidableEq, Repr

/-- Modelled from the spec: the exposed predicate testing whether an error is
a bad-check error; a nil error is not a bad check. -/
def IsBadCheck : Option GoErr → Bool
  | some (.badCheck _) => true
  | _ => false

/-- Modelled from the spec: the `Error()` text of each error kind; bad-check
errors carry the distinguishing "bad check: " prefix. -/
def goErrMsg : GoErr → String
  | .failure m => m
  | .badCheck m => "bad check: " ++ m
  | .silent => "silent failure"

/-- A value passed to the `note` side channel.  `str` is a plain Go string,
`unquoted` models the `Unquoted` wrapper, `suppressed` models the
`SuppressedIfLong` wrapper, `val` an arbitrary Go value of the element type
`α`, and `int` a Go int. -/
inductive NoteVal (α : Type) where
  | str (s : String)
  | unquoted (s : String)
  | suppressed (x : α)
  | val (x : α)
  | int (n : Int)
deriving DecidableEq, Repr

/-- The observable behaviour of one `Check(note)` invocation: the notes it
emitted, in order, and the error it returned (`none` = success). -/
structure CheckResult (α : Type) where
  notes : List (String × NoteVal α)
  err : Option GoErr
deriving DecidableEq, Repr

/-- A checker value of the current API.  A `base` checker is any non-negation
checker, described by the `CheckResult` its `Check` produces and by the
message its (optional) unexported `negatedError` method would return — in the
source the only implementor, `isNilChecker`, always returns a plain
`errors.New` failure, so the negated error is modelled by its message.
`Checker.not` is the `notChecker` struct wrapping another checker. -/
inductive Checker (α : Type) where
  | base (res : CheckResult α) (negMsg : Option String)
  | not (inner : Checker α)

/-- The error produced by `notChecker.Check` when the wrapped checker
succeeds: the wrapped checker's `negatedError()` if it implements that
interface, `errors.New("unexpected success")` otherwise.  A `notChecker`
never implements `negatedError` itself (only `Check` and `Args` are promoted
from the embedded interface). -/
def negatedErrorOf {α : Type} : Checker α → GoErr
  | .base _ (some m) => .failure m
  | _ => .failure "unexpected success"

/-- Semantics of `Check` on a checker value: a `base` checker returns its behaviour;
`notChecker.Check` runs the wrapped checker with the caller's note sink,
passes bad-check errors through unchanged, turns any other failure into
success, and on success of the wrapped checker returns its negated error. -/
def runCheck {α : Type} : Checker α → CheckResult α
  | .base r _ => r
  | .not c =>
      match (runCheck c).err with
      | some e =>
          if IsBadCheck (some e) then ⟨(runCheck c).notes, some e⟩
          else ⟨(runCheck c).notes, none⟩
      | none => ⟨(runCheck c).notes, some (negatedErrorOf c)⟩

/-- The `Not` constructor: negates a checker, collapsing a double negation at
construction time (`Not(Not(c))` returns the wrapped checker). -/
def Not {α : Type} (c : Checker α) : Checker α :=
  match c with
  | .not inner => inner
  | c => .not c

/-! ## Equals -/

/-- Index of the first newline in a list of characters, `strings.Index(s, "\n")`
with `none` for -1.  The newline byte is a single UTF-8 byte, so the byte
index used by the Go source and the character index used here single out the
same position. -/
def firstNL : List Char → Option Nat
  | [] => none
  | c :: rest => if c = '\n' then some 0 else (firstNL rest).map (· + 1)

/-- The `isMultiLine` closure of `equalsChecker[string].Check`:
`i := strings.Index(s, "\n"); return i != -1 && i < len(s)-1` — the string
contains a newline that is not its final character. -/
def isMultiLineL (l : List Char) : Bool :=
  match firstNL l with
  | none => false
  | some i => decide (i < l.length - 1)

/-- The `isMultiLine` test on a Go string. -/
def isMultiLine (s : String) : Bool := isMultiLineL s.data

/-- Model of `strings.SplitAfter(s, "\n")` on a character list: split after every
newline, keeping the separators, with a final (possibly empty) remainder. -/
def splitAfterNLL : List Char → List String
  | [] => [""]
  | c :: rest =>
      if c = '\n' then "\n" :: splitAfterNLL rest
      else
        match splitAfterNLL rest with
        | [] => [String.mk [c]]
        | piece :: more => (String.mk [c] ++ piece) :: more

/-- The split `strings.SplitAfter(s, "\n")` on a Go string. -/
def splitAfterNL (s : String) : List String := splitAfterNLL s.data

/-- The skeleton shared by every instance of `equalsChecker[T].Check`: the Go
comparison `any(c.got) == any(c.want)` can panic when the two values are
interfaces holding non-comparable values, so its evaluation is an
`Except String Bool` (`.error p` = a panic whose text is `p`).  The deferred
`recover` converts the panic into the returned error `fmt.Errorf("%s", r)`;
`true` returns nil; `false` continues with the not-equal tail of the function
(error-type handling and the multi-line diff), which cannot panic. -/
def equalsCheckRecover {α : Type} (eqOutcome : Except String Bool)
    (notEqualTail : CheckResult α) : CheckResult α :=
  match eqOutcome with
  | .error p => ⟨[], some (.failure p)⟩
  | .ok true => ⟨[], none⟩
  | .ok false => notEqualTail

/-- The not-equal tail of `equalsChecker[string].Check`: `typeOf[string]` is
not `typeOf[error]`, so the error-type branch is skipped; if either string is
multi-line, the line diff computed by the external `cmp.Diff` capability `d`
over the `strings.SplitAfter` pieces is emitted as a note, and the returned
error is `errors.New("values are not equal")`. -/
def equalsStringNotEqual {α : Type} (d : List String → List String → String)
    (got want : String) : CheckResult α :=
  if isMultiLine got || isMultiLine want then
    ⟨[("line diff (-got +want)",
        NoteVal.unquoted (d (splitAfterNL got) (splitAfterNL want)))],
     some (.failure "values are not equal")⟩
  else ⟨[], some (.failure "values are not equal")⟩

/-- Model of `equalsChecker[string].Check` with `got` and `want` strings: string
comparison never panics, so the comparison outcome is `.ok (got == want)`. -/
def equalsCheckString {α : Type} (d : List String → List String → String)
    (got want : String) : CheckResult α :=
  equalsCheckRecover (Except.ok (got == want)) (equalsStringNotEqual d got want)

/-- Model of `cmpEqualsChecker[T].Check` (the checker behind `DeepEquals` and
`CmpEquals`): `diffOutcome` is the evaluation of the external
`cmp.Diff(c.got, c.want, c.opts...)` capability — `.error p` models a panic
(e.g. unexported fields without options), recovered by the deferred handler
and converted with `BadCheckf("%s", r)`; an empty diff is success; otherwise
the diagnostics are emitted as notes and `ErrSilent` is returned. -/
def cmpEqualsCheck {α : Type} (diffOutcome : Except String String)
    (got want : α) : CheckResult α :=
  match diffOutcome with
  | .error p => ⟨[], some (.badCheck p)⟩
  | .ok d =>
      if d = "" then ⟨[], none⟩
      else
        ⟨[("error", NoteVal.unquoted "values are not deep equal"),
          ("diff (-got +want)", NoteVal.unquoted d),
          ("got", NoteVal.suppressed got),
          ("want", NoteVal.suppressed want)],
         some .silent⟩

/-! ## Matches / ErrorMatches / PanicMatches -/

/-- A compiled Go regexp, characterised by the one operation the source uses:
`MatchString`, which reports whether the pattern matches anywhere in the
subject (Go regexp matching is an unanchored search unless the pattern itself
carries anchors). -/
structure GoRegexp where
  matchString : String → Bool

/-- The `StringOrRegexp` type-parameter constraint: a pattern is either a
pattern string or a precompiled `*regexp.Regexp`. -/
inductive StringOrRegexp where
  | str (s : String)
  | regex (re : GoRegexp)

/-- The result type of the `matcher` closures: given the subject string and
the failure message, the notes emitted and the error returned. -/
def Matcher (α : Type) := String → String → CheckResult α

/-- Model of `newMatcher`: for a pattern string `r`, compile `"^(" + r + ")$"` with the
external regexp capability `compile`; a compile error yields a matcher that
notes the original pattern and returns
`BadCheckf("cannot compile regexp: %s", err)`; otherwise (and for a
precompiled regexp, which is used as-is) the matcher succeeds exactly when
`re.MatchString(got)` and fails with the caller's message otherwise. -/
def newMatcher {α : Type} (compile : String → Except String GoRegexp) :
    StringOrRegexp → Matcher α
  | .str r =>
      match compile ("^(" ++ r ++ ")$") with
      | .error e => fun _ _ =>
          ⟨[("regexp", NoteVal.str r)],
           some (.badCheck ("cannot compile regexp: " ++ e))⟩
      | .ok re => fun got msg =>
          if re.matchString got then ⟨[], none⟩ else ⟨[], some (.failure msg)⟩
  | .regex re => fun got msg =>
      if re.matchString got then ⟨[], none⟩ else ⟨[], some (.failure msg)⟩

/-- Model of `matchesChecker.Check`: run the matcher built at construction time on the
subject with the message "value does not match regexp". -/
def matchesCheck {α : Type} (compile : String → Except String GoRegexp)
    (got : String) (want : StringOrRegexp) : CheckResult α :=
  newMatcher compile want got "value does not match regexp"

/-- Model of `errorMatchesChecker.Check`: a nil `got` error fails outright; otherwise
the matcher runs on `got.Error()`.  The error is modelled by its message
(`none` = nil error), the only part of it the source consults. -/
def errorMatchesCheck {α : Type} (compile : String → Except String GoRegexp)
    (got : Option String) (want : StringOrRegexp) : CheckResult α :=
  match got with
  | none => ⟨[], some (.failure "got nil error but want non-nil")⟩
  | some msg => newMatcher compile want msg "error does not match regexp"

/-- Model of `panicMatchesChecker.Check`: the argument function is modelled by the
panic it raises (`some msg`, with `msg` the `fmt.Sprint` of the panic value)
or by `none` if it returns normally.  No panic is a distinct failure; a panic
is noted as "panic value" and then matched. -/
def panicMatchesCheck {α : Type} (compile : String → Except String GoRegexp)
    (f : Option String) (want : StringOrRegexp) : CheckResult α :=
  match f with
  | none => ⟨[], some (.failure "function did not panic")⟩
  | some msg =>
      let r : CheckResult α :=
        newMatcher compile want msg "panic value does not match regexp"
      ⟨("panic value", NoteVal.str msg) :: r.notes, r.err⟩

/-- A `matchesChecker` as a checker value (it does not implement
`negatedError`). -/
def matchesChecker {α : Type} (compile : String → Except String GoRegexp)
    (got : String) (want : StringOrRegexp) : Checker α :=
  .base (matchesCheck compile got want) none

/-! ## IsNil -/

/-- Go reflection kinds, restricted to what the nil-related checkers
inspect. -/
inductive GoKind where
  | bool | int | string | struct | array
  | ptr | interface | map | slice | chan | func
deriving DecidableEq, Repr

/-- The helper `canBeNil`: whether a value or type of the given kind can be nil. -/
def canBeNil : GoKind → Bool
  | .chan | .func | .interface | .map | .ptr | .slice => true
  | _ => false

/-- The reflection view of `isNilChecker[T]`'s stored value, mirroring the
calls the source makes: `kind` and `typeStr` come from
`reflect.ValueOf(&c.got).Elem()` (so `kind` is the kind of the static type
`T`), `vIsNil` is that value's `IsNil()` (for an interface kind this is
whether the interface itself is nil — an interface holding a typed nil
pointer is NOT nil); `dynValid` and `dynKindStr` come from
`reflect.ValueOf(c.got)` as used by `negatedError` (`IsValid()` and the
dynamic kind's string). -/
structure IsNilGot where
  kind : GoKind
  vIsNil : Bool
  typeStr : String
  dynValid : Bool
  dynKindStr : String
deriving DecidableEq, Repr

/-- Model of `isNilChecker[T].Check` of the current API: a kind that can never be nil
is a bad check; otherwise success exactly when the value is nil, and the
plain failure "got non-nil value" otherwise. -/
def isNilCheck {α : Type} (g : IsNilGot) : CheckResult α :=
  if canBeNil g.kind = false then
    ⟨[], some (.badCheck ("type " ++ g.typeStr ++ " can never be nil"))⟩
  else if g.vIsNil then ⟨[], none⟩
  else ⟨[], some (.failure "got non-nil value")⟩

/-- Model of `isNilChecker[T].negatedError`: "got nil <kind> but want non-nil" when
`reflect.ValueOf(c.got)` is valid, "got <nil> but want non-nil" otherwise. -/
def isNilNegatedMsg (g : IsNilGot) : String :=
  if g.dynValid then "got nil " ++ g.dynKindStr ++ " but want non-nil"
  else "got <nil> but want non-nil"

/-- An `isNilChecker` as a checker value; it implements `negatedError`. -/
def isNilChecker {α : Type} (g : IsNilGot) : Checker α :=
  .base (isNilCheck g) (some (isNilNegatedMsg g))

/-- The reflection view of the legacy (typed-got) `isNilChecker.Check`'s
`got any` argument: whether the interface itself is nil, the dynamic value's
kind and `IsNil()`, whether the dynamic type implements `error`, and its
`%T` name. -/
structure AnyVal where
  isNilInterface : Bool
  dynKind : GoKind
  dynIsNil : Bool
  isError : Bool
  typeName : String
deriving DecidableEq, Repr

/-- The legacy (typed-got variant) `isNilChecker.Check`: a nil interface
succeeds; a nilable dynamic value that is nil succeeds unless it implements
`error`, in which case the typed-nil-error pitfall is reported; a non-nil
value fails with "got non-nil error" or "got non-nil value". -/
def isNilCheckLegacy {α : Type} (g : AnyVal) : CheckResult α :=
  if g.isNilInterface then ⟨[], none⟩
  else if canBeNil g.dynKind && g.dynIsNil then
    if g.isError then
      ⟨[], some (.failure ("error containing nil value of type " ++ g.typeName
          ++ ". See https://golang.org/doc/faq#nil_error"))⟩
    else ⟨[], none⟩
  else if g.isError then ⟨[], some (.failure "got non-nil error")⟩
  else ⟨[], some (.failure "got non-nil value")⟩

/-! ## Quantifiers over slices (SliceAny / SliceAll) -/

/-- The body of `anyChecker[T].Check` specialised to the slice iterator,
which yields elements in index order with keys `"index i"`: notes added by
the sub-checker are discarded (the source passes a no-op note function), a
passing element stops with success, a bad-check error from the sub-checker
aborts immediately annotated with the element's key, and an exhausted
iterator yields "no matching element found". -/
def sliceAnyCheckFrom {α : Type} (f : α → Checker α) : Nat → List α → CheckResult α
  | _, [] => ⟨[], some (.failure "no matching element found")⟩
  | i, x :: xs =>
      match (runCheck (f x)).err with
      | none => ⟨[], none⟩
      | some e =>
          if IsBadCheck (some e) then
            ⟨[], some (.badCheck ("at index " ++ toString i ++ ": " ++ goErrMsg e))⟩
          else sliceAnyCheckFrom f (i + 1) xs

/-- Model of `anyChecker[T].Check` as instantiated by `SliceAny(container, f)`. -/
def sliceAnyCheck {α : Type} (f : α → Checker α) (xs : List α) : CheckResult α :=
  sliceAnyCheckFrom f 0 xs

/-- The body of `allChecker[T].Check` specialised to the slice iterator: the
sub-checker's notes are buffered; a passing element continues; a bad-check
error aborts annotated with the key; any other failure emits, in order, the
note `("error", "mismatch at index i")`, then — unless the sub-error is
`ErrSilent` — the raw error text and the first mismatched element, then the
buffered sub-notes, and returns `ErrSilent`. -/
def sliceAllCheckFrom {α : Type} (f : α → Checker α) : Nat → List α → CheckResult α
  | _, [] => ⟨[], none⟩
  | i, x :: xs =>
      match (runCheck (f x)).err with
      | none => sliceAllCheckFrom f (i + 1) xs
      | some e =>
          if IsBadCheck (some e) then
            ⟨[], some (.badCheck ("at index " ++ toString i ++ ": " ++ goErrMsg e))⟩
          else
            ⟨("error", NoteVal.unquoted ("mismatch at index " ++ toString i)) ::
               ((if e = .silent then []
                 else [("error", NoteVal.unquoted (goErrMsg e)),
                       ("first mismatched element", NoteVal.val x)]) ++
                (runCheck (f x)).notes),
             some .silent⟩

/-- Model of `allChecker[T].Check` as instantiated by `SliceAll(container, f)`. -/
def sliceAllCheck {α : Type} (f : α → Checker α) (xs : List α) : CheckResult α :=
  sliceAllCheckFrom f 0 xs

/-! ## CodecEquals -/

/-- A minimal rendering of Go's `%q` verb as used in the obtained-contents
failure message; the escaping of special characters is not modelled (the
inputs used in the theorems below contain none). -/
def quoteGo (s : String) : String := "\"" ++ s ++ "\""

/-- Model of `codecEqualChecker[T].Check`: marshal the expected value with the
caller-supplied `marshal` capability (failure is a bad check), unmarshal the
marshalled bytes (failure is a bad check), unmarshal the obtained payload
(failure is a plain check failure mentioning the payload), then hand both
intermediate values to the deep-equality step `deepCheck` (the `CmpEquals`
checker built on the external cmp capability).  Byte slices are modelled as
strings. -/
def codecEqualCheck {α γ δ : Type} (marshal : α → Except String String)
    (unmarshal : String → Except String γ) (deepCheck : γ → γ → CheckResult δ)
    (got : String) (want : α) : CheckResult δ :=
  match marshal want with
  | .error e => ⟨[], some (.badCheck ("cannot marshal expected contents: " ++ e))⟩
  | .ok wantContentBytes =>
      match unmarshal wantContentBytes with
      | .error e =>
          ⟨[], some (.badCheck ("cannot unmarshal expected contents: " ++ e))⟩
      | .ok wantContentVal =>
          match unmarshal got with
          | .error e =>
              ⟨[], some (.failure ("cannot unmarshal obtained contents: " ++ e
                  ++ "; " ++ quoteGo got))⟩
          | .ok gotContentVal => deepCheck gotContentVal wantContentVal

/-! ## ErrorIs -/

/-- A Go error value for the error-chain checkers: an identity plus, for
`wrap`, the error it wraps (the `Unwrap` chain). -/
inductive GoError where
  | leaf (id : Nat)
  | wrap (id : Nat) (inner : GoError)
deriving DecidableEq, Repr

/-- The chain walk of `errors.Is` for a non-nil error and non-nil target:
compare each error along the `Unwrap` chain with the target. -/
def errorsIsChain (t : GoError) : GoError → Bool
  | .leaf i => GoError.leaf i == t
  | .wrap i inner => (GoError.wrap i inner == t) || errorsIsChain t inner

/-- Model of the standard library's `errors.Is(err, target)`: a nil target matches only a
nil error; otherwise the unwrap chain of `err` is walked looking for a value
equal to `target`. -/
def errorsIs : Option GoError → Option GoError → Bool
  | e, none => e == none
  | none, some _ => false
  | some e, some t => errorsIsChain t e

/-- Model of `errorIsChecker.Check` of the current API: a nil got against a non-nil
want is the distinguished nil-error failure; otherwise failure exactly when
`errors.Is(got, want)` is false. -/
def errorIsCheck {α : Type} (got want : Option GoError) : CheckResult α :=
  if got = none ∧ want ≠ none then
    ⟨[], some (.failure "got nil error but want non-nil")⟩
  else if errorsIs got want = false then
    ⟨[], some (.failure "wanted error is not found in error chain")⟩
  else ⟨[], none⟩

/-! ## Assert / Check entry points -/

/-- The two fail primitives of the host test runner: `t.Fatal`
(fatal-and-stop) and `t.Error` (non-fatal-and-continue). -/
inductive FailPrim where
  | fatal
  | nonfatal
deriving DecidableEq, Repr

/-- The typed-got variant's `Checker[T]` interface, reduced to its `Check`
behaviour as a function of the got value. -/
def CheckerT (α : Type) := α → CheckResult α

/-- The shared `check` helper of quicktest.go: a nil checker is reported up
front as the bad check "nil checker provided" through the given fail
primitive, returning false; otherwise the checker runs and any error it
returns is reported through the fail primitive, returning false; success
returns true with nothing reported.  The outcome records the boolean result
and what was handed to which fail primitive. -/
def checkEntry {α : Type} (prim : FailPrim) (checker : Option (CheckerT α))
    (got : α) : Bool × Option (FailPrim × GoErr) :=
  match checker with
  | none => (false, some (prim, .badCheck "nil checker provided"))
  | some ck =>
      match (ck got).err with
      | some e => (false, some (prim, e))
      | none => (true, none)

/-- Model of `Assert`: check with the fatal fail primitive `t.Fatal`. -/
def Assert {α : Type} (checker : Option (CheckerT α)) (got : α) :
    Bool × Option (FailPrim × GoErr) :=
  checkEntry .fatal checker got

/-- Model of `Check`: check with the non-fatal fail primitive `t.Error`. -/
def Check {α : Type} (checker : Option (CheckerT α)) (got : α) :
    Bool × Option (FailPrim × GoErr) :=
  checkEntry .nonfatal checker got

/-! ## Concrete instances of the external capabilities -/

/-- Modelled from the spec: the external pattern-matching capability's
compiled object for the plain pattern `a`.  Go regexp matching is an
unanchored search, so `MatchString` reports whether `a` occurs anywhere in
the subject. -/
def goRegexpLetterA : GoRegexp := ⟨fun s => s.data.any (fun c => c == 'a')⟩

/-- Modelled from the spec: the anchored form `^(a)$` of that pattern matches
the entire subject, i.e. exactly the subject "a". -/
def anchoredLetterA (s : String) : Bool := s == "a"

/-- A concrete compiled regexp used as a witness: the full-match language of
the anchored pattern `^(x)$`. -/
def c5reX : GoRegexp := ⟨fun s => s == "x"⟩

/-- A concrete external compile function used as a witness: it compiles
`^(x)$` to `c5reX` and rejects any other pattern text. -/
def c5compile : String → Except String GoRegexp :=
  fun t => if t = "^(x)$" then Except.ok c5reX else Except.error "missing closing )"

/-- A concrete element checker used as a witness for the quantifiers: an
`Equals`-style base checker that succeeds exactly on the element 7. -/
def c1elem : Nat → Checker Nat :=
  fun n => .base ⟨[], if n = 7 then none else some (.failure "values are not equal")⟩ none

/-! ## Helper lemmas -/

/-- Unfolding lemma for `runCheck` on a `notChecker`. -/
theorem runCheck_not_def {α : Type} (c : Checker α) :
    runCheck (.not c) =
      match (runCheck c).err with
      | some e =>
          if IsBadCheck (some e) then ⟨(runCheck c).notes, some e⟩
          else ⟨(runCheck c).notes, none⟩
      | none => ⟨(runCheck c).notes, some (negatedErrorOf c)⟩ := rfl

/-- A negated error is never a bad check: `negatedError` is only implemented
by `isNilChecker`, which returns a plain failure, and the fallback is the
plain "unexpected success" failure. -/
theorem isBadCheck_negatedErrorOf {α : Type} (c : Checker α) :
    IsBadCheck (some (negatedErrorOf c)) = false := by
  cases c with
  | base r n => cases n <;> rfl
  | not inner => rfl

/-- Characterisation of `IsBadCheck`. -/
theorem isBadCheck_iff (o : Option GoErr) :
    IsBadCheck o = true ↔ ∃ m, o = some (.badCheck m) := by
  cases o with
  | none => simp [IsBadCheck]
  | some e => cases e <;> simp [IsBadCheck]

/-- Unfolding lemma for `newMatcher` on a string pattern. -/
theorem newMatcher_str_def {α : Type} (compile : String → Except String GoRegexp)
    (r got msg : String) :
    newMatcher (α := α) compile (.str r) got msg =
      match compile ("^(" ++ r ++ ")$") with
      | .error e =>
          ⟨[("regexp", NoteVal.str r)],
           some (.badCheck ("cannot compile regexp: " ++ e))⟩
      | .ok re =>
          if re.matchString got then ⟨[], none⟩ else ⟨[], some (.failure msg)⟩ := by
  have hu : newMatcher (α := α) compile (.str r) =
      match compile ("^(" ++ r ++ ")$") with
      | .error e => fun _ _ =>
          ⟨[("regexp", NoteVal.str r)],
           some (.badCheck ("cannot compile regexp: " ++ e))⟩
      | .ok re => fun got msg =>
          if re.matchString got then ⟨[], none⟩
          else ⟨[], some (.failure msg)⟩ := rfl
  rw [hu]
  cases compile ("^(" ++ r ++ ")$") <;> rfl

/-- Unfolding lemma for `newMatcher` on a precompiled regexp. -/
theorem newMatcher_regex_def {α : Type} (compile : String → Except String GoRegexp)
    (re : GoRegexp) (got msg : String) :
    newMatcher (α := α) compile (.regex re) got msg =
      if re.matchString got then ⟨[], none⟩ else ⟨[], some (.failure msg)⟩ := rfl

/-- The list returned by `firstNL` points at a newline, and at the first
one. -/
theorem firstNL_spec : ∀ (l : List Char) (i : Nat), firstNL l = some i →
    l.get? i = some '\n' ∧ ∀ j, j < i → l.get? j ≠ some '\n' := by
  intro l
  induction l with
  | nil => intro i h; cases h
  | cons c rest ih =>
      intro i h
      unfold firstNL at h
      by_cases hc : c = '\n'
      · rw [if_pos hc] at h
        cases h
        subst hc
        exact ⟨rfl, fun j hj => absurd hj (Nat.not_lt_zero j)⟩
      · rw [if_neg hc] at h
        obtain ⟨j, hj, hji⟩ := Option.map_eq_some'.1 h
        obtain ⟨hnl, hfirst⟩ := ih j hj
        subst hji
        refine ⟨hnl, ?_⟩
        intro j' hj'
        cases j' with
        | zero =>
            simp only [List.get?_cons_zero]
            exact fun hcc => hc (Option.some.inj hcc)
        | succ k =>
            simp only [List.get?_cons_succ]
            exact hfirst k (Nat.lt_of_succ_lt_succ hj')

/-- If `firstNL` finds nothing, the list has no newline at any position. -/
theorem firstNL_none_no_nl : ∀ (l : List Char), firstNL l = none →
    ∀ i, l.get? i ≠ some '\n' := by
  intro l
  induction l with
  | nil => intro _ i; simp
  | cons c rest ih =>
      intro h i
      unfold firstNL at h
      by_cases hc : c = '\n'
      · rw [if_pos hc] at h; cases h
      · rw [if_neg hc] at h
        have hrest : firstNL rest = none := Option.map_eq_none'.1 h
        cases i with
        | zero =>
            simp only [List.get?_cons_zero]
            exact fun hcc => hc (Option.some.inj hcc)
        | succ k =>
            simp only [List.get?_cons_succ]
            exact ih hrest k

/-- Characterisation of the multi-line test: a character list is multi-line
exactly when it has a newline that is not its final character. -/
theorem isMultiLineL_iff (l : List Char) :
    isMultiLineL l = true ↔ ∃ i, l.get? i = some '\n' ∧ i + 1 < l.length := by
  constructor
  · intro h
    unfold isMultiLineL at h
    cases hf : firstNL l with
    | none => rw [hf] at h; cases h
    | some i =>
        rw [hf] at h
        have h2 : decide (i < l.length - 1) = true := h
        have h3 := of_decide_eq_true h2
        have hnl := (firstNL_spec l i hf).1
        exact ⟨i, hnl, by omega⟩
  · rintro ⟨i, hi, hlen⟩
    unfold isMultiLineL
    cases hf : firstNL l with
    | none => exact absurd hi (firstNL_none_no_nl l hf i)
    | some j =>
        have hspec := firstNL_spec l j hf
        have hji : j ≤ i := by
          by_contra hgt
          push_neg at hgt
          exact hspec.2 i hgt hi
        show decide (j < l.length - 1) = true
        exact decide_eq_true (by omega)

/-! ## Quantifier step lemmas -/

/-- Running `anyChecker` on an empty iterator yields
"no matching element found". -/
theorem sliceAnyCheckFrom_nil {α : Type} (f : α → Checker α) (k : Nat) :
    sliceAnyCheckFrom f k [] = ⟨[], some (.failure "no matching element found")⟩ := rfl

/-- A passing element stops `anyChecker` with success. -/
theorem sliceAnyCheckFrom_cons_none {α : Type} (f : α → Checker α) (k : Nat)
    (x : α) (xs : List α) (h : (runCheck (f x)).err = none) :
    sliceAnyCheckFrom f k (x :: xs) = ⟨[], none⟩ := by
  simp only [sliceAnyCheckFrom]
  split
  · rfl
  next e heq => rw [h] at heq; cases heq

/-- A failing (non-bad-check) element makes `anyChecker` move on. -/
theorem sliceAnyCheckFrom_cons_fail {α : Type} (f : α → Checker α) (k : Nat)
    (x : α) (xs : List α) (e : GoErr) (h : (runCheck (f x)).err = some e)
    (hb : IsBadCheck (some e) = false) :
    sliceAnyCheckFrom f k (x :: xs) = sliceAnyCheckFrom f (k + 1) xs := by
  simp only [sliceAnyCheckFrom]
  split
  next heq => rw [h] at heq; cases heq
  next e2 heq =>
      rw [h] at heq
      injection heq with heq2
      subst heq2
      rw [if_neg (by simp [hb])]

/-- Running `allChecker` on an empty iterator succeeds. -/
theorem sliceAllCheckFrom_nil {α : Type} (f : α → Checker α) (k : Nat) :
    sliceAllCheckFrom f k [] = ⟨[], none⟩ := rfl

/-- A passing element makes `allChecker` move on. -/
theorem sliceAllCheckFrom_cons_none {α : Type} (f : α → Checker α) (k : Nat)
    (x : α) (xs : List α) (h : (runCheck (f x)).err = none) :
    sliceAllCheckFrom f k (x :: xs) = sliceAllCheckFrom f (k + 1) xs := by
  simp only [sliceAllCheckFrom]
  split
  · rfl
  next e heq => rw [h] at heq; cases heq

/-- A failing (non-bad-check) element stops `allChecker` with the mismatch
note first. -/
theorem sliceAllCheckFrom_cons_fail {α : Type} (f : α → Checker α) (k : Nat)
    (x : α) (xs : List α) (e : GoErr) (h : (runCheck (f x)).err = some e)
    (hb : IsBadCheck (some e) = false) :
    sliceAllCheckFrom f k (x :: xs)
      = ⟨("error", NoteVal.unquoted ("mismatch at index " ++ toString k)) ::
           ((if e = .silent then []
             else [("error", NoteVal.unquoted (goErrMsg e)),
                   ("first mismatched element", NoteVal.val x)]) ++
            (runCheck (f x)).notes),
         some .silent⟩ := by
  simp only [sliceAllCheckFrom]
  split
  next heq => rw [h] at heq; cases heq
  next e2 heq =>
      rw [h] at heq
      injection heq with heq2
      subst heq2
      rw [if_neg (by simp [hb])]

/-- The success cases of `anyChecker`. -/
theorem sliceAnyCheckFrom_err_none_iff {α : Type} (f : α → Checker α) :
    ∀ (xs : List α) (k : Nat),
      (∀ x ∈ xs, IsBadCheck (runCheck (f x)).err = false) →
      ((sliceAnyCheckFrom f k xs).err = none ↔
        ∃ x ∈ xs, (runCheck (f x)).err = none) := by
  intro xs
  induction xs with
  | nil => intro k _; simp [sliceAnyCheckFrom_nil]
  | cons x xs ih =>
      intro k hnb
      cases he : (runCheck (f x)).err with
      | none =>
          rw [sliceAnyCheckFrom_cons_none f k x xs he]
          constructor
          · intro _
            exact ⟨x, List.mem_cons_self x xs, he⟩
          · intro _
            rfl
      | some e =>
          have hx := hnb x (List.mem_cons_self x xs)
          rw [he] at hx
          rw [sliceAnyCheckFrom_cons_fail f k x xs e he hx]
          rw [ih (k + 1) (fun y hy => hnb y (List.mem_cons_of_mem x hy))]
          constructor
          · rintro ⟨y, hy, hyn⟩
            exact ⟨y, List.mem_cons_of_mem x hy, hyn⟩
          · rintro ⟨y, hy, hyn⟩
            rcases List.mem_cons.mp hy with h0 | h1
            · subst h0; rw [he] at hyn; cases hyn
            · exact ⟨y, h1, hyn⟩

/-- The all-fail case of `anyChecker`. -/
theorem sliceAnyCheckFrom_all_fail {α : Type} (f : α → Checker α) :
    ∀ (xs : List α) (k : Nat),
      (∀ x ∈ xs, IsBadCheck (runCheck (f x)).err = false) →
      (∀ x ∈ xs, (runCheck (f x)).err ≠ none) →
      sliceAnyCheckFrom f k xs
        = ⟨[], some (.failure "no matching element found")⟩ := by
  intro xs
  induction xs with
  | nil => intro k _ _; rfl
  | cons x xs ih =>
      intro k hnb hfail
      cases he : (runCheck (f x)).err with
      | none => exact absurd he (hfail x (List.mem_cons_self x xs))
      | some e =>
          have hx := hnb x (List.mem_cons_self x xs)
          rw [he] at hx
          rw [sliceAnyCheckFrom_cons_fail f k x xs e he hx]
          exact ih (k + 1) (fun y hy => hnb y (List.mem_cons_of_mem x hy))
            (fun y hy => hfail y (List.mem_cons_of_mem x hy))

/-- The all-pass case of `allChecker`. -/
theorem sliceAllCheckFrom_success {α : Type} (f : α → Checker α) :
    ∀ (xs : List α) (k : Nat),
      (∀ x ∈ xs, (runCheck (f x)).err = none) →
      sliceAllCheckFrom f k xs = ⟨[], none⟩ := by
  intro xs
  induction xs with
  | nil => intro k _; rfl
  | cons x xs ih =>
      intro k hok
      rw [sliceAllCheckFrom_cons_none f k x xs (hok x (List.mem_cons_self x xs))]
      exact ih (k + 1) (fun y hy => hok y (List.mem_cons_of_mem x hy))

/-- The first-failure case of `allChecker`: with a prefix of passing elements
and a first failing (non-bad-check) element, the run stops silent with the
mismatch note, naming the element's index, first. -/
theorem sliceAllCheckFrom_firstFail {α : Type} (f : α → Checker α) :
    ∀ (pre : List α) (k : Nat) (xi : α) (post : List α),
      (∀ x ∈ pre, (runCheck (f x)).err = none) →
      (runCheck (f xi)).err ≠ none →
      IsBadCheck (runCheck (f xi)).err = false →
      (sliceAllCheckFrom f k (pre ++ xi :: post)).err = some .silent ∧
      (sliceAllCheckFrom f k (pre ++ xi :: post)).notes.head?
        = some ("error",
            NoteVal.unquoted ("mismatch at index " ++ toString (k + pre.length))) := by
  intro pre
  induction pre with
  | nil =>
      intro k xi post _ hxi hnb
      cases he : (runCheck (f xi)).err with
      | none => exact absurd he hxi
      | some e =>
          rw [he] at hnb
          rw [List.nil_append,
            sliceAllCheckFrom_cons_fail f k xi post e he hnb]
          exact ⟨rfl, rfl⟩
  | cons p pre ih =>
      intro k xi post hpre hxi hnb
      have hp := hpre p (List.mem_cons_self p pre)
      rw [List.cons_append, sliceAllCheckFrom_cons_none f k p (pre ++ xi :: post) hp]
      have hlen : k + 1 + pre.length = k + (p :: pre).length := by
        simp [List.length_cons]
        omega
      rw [← hlen]
      exact ih (k + 1) xi post
        (fun y hy => hpre y (List.mem_cons_of_mem p hy)) hxi hnb

/-! ## Claim theorems -/

/-- C2: for every checker `c` built through the public API (a `notChecker`
never directly wraps another `notChecker`, since `Not` is the only way to
build one and it collapses), `Not (Not c)` is the identical checker value,
hence behaves identically on success and failure; a wrapped checker's custom
negated message `m` is surfaced by exactly one level of negation, replacing
the generic "unexpected success" message, as illustrated by the `IsNil`
checker on a nil pointer, whose single negation reports
"got nil ptr but want non-nil". -/
theorem C2_not_involution {α : Type} :
    (∀ c : Checker α, (∀ d : Checker α, c ≠ .not (.not d)) →
        Not (Not c) = c ∧ runCheck (Not (Not c)) = runCheck c) ∧
    (∀ (notes : List (String × NoteVal α)) (m : String),
        runCheck (Not (.base ⟨notes, none⟩ (some m))) = ⟨notes, some (.failure m)⟩) ∧
    (∀ notes : List (String × NoteVal α),
        runCheck (Not (.base ⟨notes, none⟩ none))
          = ⟨notes, some (.failure "unexpected success")⟩) ∧
    (∀ ts : String,
        runCheck (isNilChecker (α := α) ⟨.ptr, true, ts, true, "ptr"⟩) = ⟨[], none⟩ ∧
        runCheck (Not (isNilChecker (α := α) ⟨.ptr, true, ts, true, "ptr"⟩))
          = ⟨[], some (.failure "got nil ptr but want non-nil")⟩ ∧
        runCheck (Not (Not (isNilChecker (α := α) ⟨.ptr, true, ts, true, "ptr"⟩)))
          = ⟨[], none⟩) := by
  refine ⟨?_, ?_, ?_, ?_⟩
  · intro c h
    cases c with
    | base r n => exact ⟨rfl, rfl⟩
    | not inner =>
        cases inner with
        | base r n => exact ⟨rfl, rfl⟩
        | not d => exact absurd rfl (h d)
  · intro notes m
    rfl
  · intro notes
    rfl
  · intro ts
    exact ⟨rfl, rfl, rfl⟩

/-- Witness for C2 at the concrete base checker that succeeds with no
notes. -/
theorem C2_not_involution_witness :
    Not (Not (Checker.base (α := Nat) ⟨[], none⟩ none))
      = Checker.base (α := Nat) ⟨[], none⟩ none :=
  ((C2_not_involution.1 (Checker.base ⟨[], none⟩ none)
    (fun d hEq => by cases hEq)).1)

/-- C3: a bad-check error returned by the wrapped checker passes through
`Not` unchanged (misuse is never masked by negation); in particular, when the
external regexp engine rejects the anchored form `^(()$` of the invalid
pattern `(`, the `Matches` checker yields the bad-check error naming the
compile error in both the positive and the negated form. -/
theorem C3_badcheck_passthrough {α : Type} :
    (∀ c : Checker α, IsBadCheck (runCheck c).err = true →
        (runCheck (Not c)).err = (runCheck c).err) ∧
    (∀ (compile : String → Except String GoRegexp) (s e : String),
        compile "^(()$" = Except.error e →
        (matchesCheck (α := α) compile s (.str "(")).err
            = some (.badCheck ("cannot compile regexp: " ++ e)) ∧
        (runCheck (Not (matchesChecker (α := α) compile s (.str "(")))).err
            = some (.badCheck ("cannot compile regexp: " ++ e))) := by
  constructor
  · intro c h
    obtain ⟨m, hm⟩ := (isBadCheck_iff _).1 h
    cases c with
    | base r n =>
        show (runCheck (.not (.base r n))).err = _
        rw [runCheck_not_def, hm]
        simp [IsBadCheck]
    | not inner =>
        show (runCheck inner).err = (runCheck (.not inner)).err
        rw [hm]
        rw [runCheck_not_def] at hm
        cases he : (runCheck inner).err with
        | none =>
            rw [he] at hm
            have hm2 : some (negatedErrorOf inner) = some (GoErr.badCheck m) := hm
            simp only [Option.some.injEq] at hm2
            have h2 := isBadCheck_negatedErrorOf inner
            rw [hm2] at h2
            simp [IsBadCheck] at h2
        | some e =>
            rw [he] at hm
            have hm2 : (if IsBadCheck (some e) = true
                then (⟨(runCheck inner).notes, some e⟩ : CheckResult α)
                else ⟨(runCheck inner).notes, none⟩).err
                = some (GoErr.badCheck m) := hm
            by_cases hb : IsBadCheck (some e) = true
            · rw [if_pos hb] at hm2
              exact hm2
            · rw [if_neg hb] at hm2
              exact Option.noConfusion hm2
  · intro compile s e hc
    have hc2 : compile ("^(" ++ "(" ++ ")$") = Except.error e := hc
    have hm : matchesCheck (α := α) compile s (.str "(")
        = ⟨[("regexp", NoteVal.str "(")],
           some (.badCheck ("cannot compile regexp: " ++ e))⟩ := by
      unfold matchesCheck
      rw [newMatcher_str_def, hc2]
    constructor
    · rw [hm]
    · show (runCheck (.not (matchesChecker compile s (.str "(")))).err = _
      rw [runCheck_not_def]
      have hrun : runCheck (matchesChecker (α := α) compile s (.str "("))
          = matchesCheck compile s (.str "(") := rfl
      rw [hrun, hm]
      rfl

/-- Witness for C3 at a concrete compile function that rejects `^(()$` with
the Go regexp parser's message. -/
theorem C3_badcheck_passthrough_witness :
    (matchesCheck (α := Unit)
        (fun t => if t = "^(()$"
          then Except.error "error parsing regexp: missing closing )"
          else Except.ok ⟨fun _ => true⟩)
        "voyages" (.str "(")).err
      = some (.badCheck
          ("cannot compile regexp: error parsing regexp: missing closing )")) :=
  ((C3_badcheck_passthrough.2
      (fun t => if t = "^(()$"
        then Except.error "error parsing regexp: missing closing )"
        else Except.ok ⟨fun _ => true⟩)
      "voyages" "error parsing regexp: missing closing )" rfl).1)

/-- C6 counterexample: the current `isNilChecker` applied to an error value
holding a typed nil pointer (static type `error`, an interface kind; the
interface itself is non-nil, so `IsNil()` on it is false) fails with the
plain "got non-nil value" — the very message produced for any non-nil value,
e.g. a non-nil slice — and not with the pitfall-referencing message, which
only the legacy typed-got variant produces.  This refutes the claim that the
failure message references the typed-nil-error pitfall rather than being a
generic non-nil message. -/
theorem C6_counterexample :
    isNilCheck (α := Unit) ⟨.interface, false, "error", true, "ptr"⟩
        = ⟨[], some (.failure "got non-nil value")⟩ ∧
    isNilCheck (α := Unit) ⟨.slice, false, "[]int", true, "slice"⟩
        = ⟨[], some (.failure "got non-nil value")⟩ ∧
    (isNilCheck (α := Unit) ⟨.interface, false, "error", true, "ptr"⟩).err
      ≠ (isNilCheckLegacy (α := Unit) ⟨false, .ptr, true, true, "*errTest"⟩).err := by
  refine ⟨rfl, rfl, ?_⟩
  decide

/-- C6 amended: `IsNil` on a nil-valued pointer succeeds in both variants; in
the current API, `IsNil` on an error value holding a nil concrete pointer
fails with the generic "got non-nil value" message, while the
pitfall-referencing message
"error containing nil value of type %T. See https://golang.org/doc/faq#nil_error"
is produced only by the legacy typed-got variant of the checker. -/
theorem C6_amended :
    (∀ ts dks : String,
        (isNilCheck (α := Unit) ⟨.ptr, true, ts, true, dks⟩).err = none) ∧
    isNilCheck (α := Unit) ⟨.interface, false, "error", true, "ptr"⟩
        = ⟨[], some (.failure "got non-nil value")⟩ ∧
    (∀ tn : String,
        isNilCheckLegacy (α := Unit) ⟨false, .ptr, true, true, tn⟩
          = ⟨[], some (.failure ("error containing nil value of type " ++ tn
              ++ ". See https://golang.org/doc/faq#nil_error"))⟩) ∧
    (∀ tn : String,
        (isNilCheckLegacy (α := Unit) ⟨false, .ptr, true, false, tn⟩).err = none) :=
  ⟨fun _ _ => rfl, rfl, fun _ => rfl, fun _ => rfl⟩

/-- C8: both entry points reject a nil checker up front, reporting the
"nil checker provided" bad check through their fail primitive and returning
false; `Assert` always reports through the fatal primitive and `Check`
through the non-fatal one; both return true exactly when the checker's
`Check` returns nil, and false (reporting the returned error) otherwise. -/
theorem C8_entry_points {α : Type} :
    (∀ got : α,
        Assert (α := α) none got
            = (false, some (.fatal, .badCheck "nil checker provided")) ∧
        Check (α := α) none got
            = (false, some (.nonfatal, .badCheck "nil checker provided"))) ∧
    (∀ (ck : CheckerT α) (got : α),
        ((Assert (some ck) got).1 = true ↔ (ck got).err = none) ∧
        ((Check (some ck) got).1 = true ↔ (ck got).err = none)) ∧
    (∀ (ck : CheckerT α) (got : α) (e : GoErr), (ck got).err = some e →
        Assert (some ck) got = (false, some (.fatal, e)) ∧
        Check (some ck) got = (false, some (.nonfatal, e))) := by
  refine ⟨fun got => ⟨rfl, rfl⟩, ?_, ?_⟩
  · intro ck got
    constructor
    · cases he : (ck got).err <;> simp [Assert, checkEntry, he]
    · cases he : (ck got).err <;> simp [Check, checkEntry, he]
  · intro ck got e he
    exact ⟨by simp [Assert, checkEntry, he], by simp [Check, checkEntry, he]⟩

/-- Witness for C8 at a concrete checker on Nat that succeeds on 0 and fails
otherwise. -/
theorem C8_entry_points_witness :
    qt.Assert (α := Nat) none 0
        = (false, some (.fatal, .badCheck "nil checker provided")) ∧
    qt.Assert
        (some (fun n : Nat =>
          ⟨[], if n = 0 then none else some (.failure "unexpected length")⟩))
        1
      = (false, some (.fatal, .failure "unexpected length")) :=
  ⟨(C8_entry_points.1 0).1,
   ((C8_entry_points.2.2
      (fun n : Nat =>
        ⟨[], if n = 0 then none else some (.failure "unexpected length")⟩)
      1 (.failure "unexpected length") rfl).1)⟩

/-- C9: a panic raised by the underlying comparison — the `==` evaluation in
`Equals` (interfaces holding non-comparable values) or the `cmp.Diff` call in
`DeepEquals`/`CmpEquals` — is recovered inside that checker's `Check` by its
deferred handler and converted into a returned error (`fmt.Errorf("%s", r)`
for `Equals`, `BadCheckf("%s", r)` for the cmp-based checkers).  In this
embedding a panicking comparison is the `.error` input and `Check` is a total
function into `CheckResult`, so no panic escapes to the caller. -/
theorem C9_panic_recovered {α : Type} :
    (∀ (p : String) (tail : CheckResult α),
        equalsCheckRecover (Except.error p) tail = ⟨[], some (.failure p)⟩) ∧
    (∀ (p : String) (got want : α),
        cmpEqualsCheck (Except.error p) got want = ⟨[], some (.badCheck p)⟩) :=
  ⟨fun _ _ => rfl, fun _ _ _ => rfl⟩

/-- C10: `ErrorIs(nil, nil)` succeeds; the "got nil error but want non-nil"
failure arises exactly when got is nil and want is non-nil; and a non-nil got
checked against a nil want fails with
"wanted error is not found in error chain". -/
theorem C10_errorIs_nil_cases {α : Type} :
    (errorIsCheck (α := α) none none).err = none ∧
    (∀ got want : Option GoError,
        ((errorIsCheck (α := α) got want).err
            = some (.failure "got nil error but want non-nil")
          ↔ got = none ∧ want ≠ none)) ∧
    (∀ g : GoError,
        errorIsCheck (α := α) (some g) none
          = ⟨[], some (.failure "wanted error is not found in error chain")⟩) := by
  refine ⟨rfl, ?_, fun g => rfl⟩
  intro got want
  cases got with
  | none =>
      cases want with
      | none => simp [errorIsCheck, errorsIs]
      | some w => simp [errorIsCheck]
  | some g =>
      cases want with
      | none => simp [errorIsCheck, errorsIs]
      | some w =>
          unfold errorIsCheck
          rw [if_neg (by simp)]
          cases hb : errorsIs (some g) (some w) <;> simp [hb]

/-- C1: over a slice, as long as the sub-checker never reports a bad check
(caller misuse, which aborts both quantifiers immediately), `All` iterates in
index order and stops at the first failing element, returning `ErrSilent`
with the note ("error", "mismatch at index i") emitted before every other
failure note; `Any` succeeds exactly when some element passes, and otherwise
returns the error "no matching element found". -/
theorem C1_quantifiers {α : Type} (f : α → Checker α) (xs : List α)
    (hnb : ∀ x ∈ xs, IsBadCheck (runCheck (f x)).err = false) :
    ((sliceAnyCheck f xs).err = none ↔ ∃ x ∈ xs, (runCheck (f x)).err = none) ∧
    ((∀ x ∈ xs, (runCheck (f x)).err ≠ none) →
        sliceAnyCheck f xs = ⟨[], some (.failure "no matching element found")⟩) ∧
    ((∀ x ∈ xs, (runCheck (f x)).err = none) → sliceAllCheck f xs = ⟨[], none⟩) ∧
    (∀ (pre : List α) (xi : α) (post : List α), xs = pre ++ xi :: post →
        (∀ x ∈ pre, (runCheck (f x)).err = none) →
        (runCheck (f xi)).err ≠ none →
        (sliceAllCheck f xs).err = some .silent ∧
        (sliceAllCheck f xs).notes.head?
          = some ("error",
              NoteVal.unquoted ("mismatch at index " ++ toString pre.length))) := by
  refine ⟨?_, ?_, ?_, ?_⟩
  · exact sliceAnyCheckFrom_err_none_iff f xs 0 hnb
  · intro hfail
    exact sliceAnyCheckFrom_all_fail f xs 0 hnb hfail
  · intro hok
    exact sliceAllCheckFrom_success f xs 0 hok
  · intro pre xi post hsplit hpre hxi
    subst hsplit
    have hxib : IsBadCheck (runCheck (f xi)).err = false :=
      hnb xi (List.mem_append.mpr (Or.inr (List.mem_cons_self xi post)))
    have h := sliceAllCheckFrom_firstFail f pre 0 xi post hpre hxi hxib
    rw [Nat.zero_add] at h
    exact h

/-- Witness for C1 at a concrete element checker over Nat slices: `Any` finds
the passing element 7 in [3, 7] and reports "no matching element found" on
[3, 5]; `All` passes on [7, 7] and on [7, 3, 5] stops at index 1 with the
mismatch note first. -/
theorem C1_quantifiers_witness :
    (sliceAnyCheck c1elem [3, 7]).err = none ∧
    sliceAnyCheck c1elem [3, 5] = ⟨[], some (.failure "no matching element found")⟩ ∧
    sliceAllCheck c1elem [7, 7] = ⟨[], none⟩ ∧
    (sliceAllCheck c1elem [7, 3, 5]).err = some .silent ∧
    (sliceAllCheck c1elem [7, 3, 5]).notes.head?
      = some ("error", NoteVal.unquoted "mismatch at index 1") := by
  refine ⟨?_, ?_, ?_, ?_, ?_⟩
  · exact (C1_quantifiers c1elem [3, 7] (by decide)).1.mpr ⟨7, by decide, by decide⟩
  · exact (C1_quantifiers c1elem [3, 5] (by decide)).2.1 (by decide)
  · exact (C1_quantifiers c1elem [7, 7] (by decide)).2.2.1 (by decide)
  · exact ((C1_quantifiers c1elem [7, 3, 5] (by decide)).2.2.2 [7] 3 [5] rfl
      (by decide) (by decide)).1
  · exact ((C1_quantifiers c1elem [7, 3, 5] (by decide)).2.2.2 [7] 3 [5] rfl
      (by decide) (by decide)).2

/-- C4 counterexample: `Equals` on the unequal strings "a\nb" (multi-line)
and "x" (single-line) does attach the "line diff (-got +want)" note, because
the source guards the note with `isMultiLine(got) || isMultiLine(want)` —
refuting the claim that the note is attached only when both strings are
multi-line. -/
theorem C4_counterexample :
    (equalsCheckString (α := Unit) (fun _ _ => "DIFF") "a\nb" "x").notes
        = [("line diff (-got +want)", NoteVal.unquoted "DIFF")] ∧
    isMultiLine "a\nb" = true ∧ isMultiLine "x" = false := by
  refine ⟨?_, ?_, ?_⟩ <;> rfl

/-- C4 amended: for unequal strings, the "line diff (-got +want)" note is
attached if and only if at least one of the two strings is multi-line (not:
both), where a string is multi-line exactly when it contains a newline that
is not its final character (a trailing newline alone does not count); the
returned error is "values are not equal" either way. -/
theorem C4_amended {α : Type} (d : List String → List String → String)
    (got want : String) (h : got ≠ want) :
    ((equalsCheckString (α := α) d got want).notes.map Prod.fst
        = if isMultiLine got || isMultiLine want
          then ["line diff (-got +want)"] else []) ∧
    (equalsCheckString (α := α) d got want).err
        = some (.failure "values are not equal") ∧
    (∀ s : String, isMultiLine s = true ↔
        ∃ i, s.data.get? i = some '\n' ∧ i + 1 < s.data.length) := by
  have hbe : (got == want) = false := beq_eq_false_iff_ne.mpr h
  have hrun : equalsCheckString (α := α) d got want
      = equalsStringNotEqual d got want := by
    unfold equalsCheckString
    rw [hbe]
    rfl
  refine ⟨?_, ?_, fun s => isMultiLineL_iff s.data⟩
  · rw [hrun]
    unfold equalsStringNotEqual
    by_cases hm : (isMultiLine got || isMultiLine want) = true
    · rw [if_pos hm, if_pos hm]
      rfl
    · rw [if_neg hm, if_neg hm]
      rfl
  · rw [hrun]
    unfold equalsStringNotEqual
    by_cases hm : (isMultiLine got || isMultiLine want) = true
    · rw [if_pos hm]
    · rw [if_neg hm]

/-- Witness for C4 at the concrete unequal strings "a\nb" and "x". -/
theorem C4_amended_witness :
    (equalsCheckString (α := Unit) (fun _ _ => "DIFF") "a\nb" "x").notes.map Prod.fst
      = if isMultiLine "a\nb" || isMultiLine "x"
        then ["line diff (-got +want)"] else [] :=
  (C4_amended (fun _ _ => "DIFF") "a\nb" "x" (by decide)).1

/-- C5 counterexample: `Matches` with the precompiled pattern `a` succeeds on
the subject "xay" — the precompiled regexp is used as-is, and Go regexp
matching searches anywhere in the subject — although the pattern anchored at
both ends, `^(a)$`, does not match "xay".  This refutes the claim that for a
precompiled pattern object the check succeeds iff the anchored pattern
matches the whole subject. -/
theorem C5_counterexample :
    (matchesCheck (α := Unit) (fun _ => Except.error "unused") "xay"
        (.regex goRegexpLetterA)).err = none ∧
    goRegexpLetterA.matchString "xay" = true ∧
    anchoredLetterA "xay" = false := by
  refine ⟨?_, ?_, ?_⟩ <;> rfl

/-- C5 amended: for a pattern given as a string `p`, `Matches`, `ErrorMatches`
(on a non-nil error) and `PanicMatches` (on a panicking function) compile the
pattern anchored at both ends, `^(p)$`, and succeed exactly when that
compiled regexp matches the subject; a string pattern the engine cannot
compile yields the bad-check error "cannot compile regexp: …" rather than a
check failure.  A precompiled regexp object, however, is used as-is (it is
not re-anchored): the check succeeds exactly when that regexp reports a
match, which for an unanchored pattern can be a match anywhere in the
subject. -/
theorem C5_amended {α : Type} (compile : String → Except String GoRegexp)
    (s p : String) (re reC : GoRegexp) (e : String) :
    (compile ("^(" ++ p ++ ")$") = Except.ok reC →
        (((matchesCheck (α := α) compile s (.str p)).err = none)
            ↔ reC.matchString s = true) ∧
        (((errorMatchesCheck (α := α) compile (some s) (.str p)).err = none)
            ↔ reC.matchString s = true) ∧
        (((panicMatchesCheck (α := α) compile (some s) (.str p)).err = none)
            ↔ reC.matchString s = true)) ∧
    (compile ("^(" ++ p ++ ")$") = Except.error e →
        (matchesCheck (α := α) compile s (.str p)).err
            = some (.badCheck ("cannot compile regexp: " ++ e)) ∧
        (errorMatchesCheck (α := α) compile (some s) (.str p)).err
            = some (.badCheck ("cannot compile regexp: " ++ e)) ∧
        (panicMatchesCheck (α := α) compile (some s) (.str p)).err
            = some (.badCheck ("cannot compile regexp: " ++ e))) ∧
    (((matchesCheck (α := α) compile s (.regex re)).err = none)
        ↔ re.matchString s = true) ∧
    (((errorMatchesCheck (α := α) compile (some s) (.regex re)).err = none)
        ↔ re.matchString s = true) ∧
    (((panicMatchesCheck (α := α) compile (some s) (.regex re)).err = none)
        ↔ re.matchString s = true) := by
  refine ⟨?_, ?_, ?_, ?_, ?_⟩
  · intro hok
    refine ⟨?_, ?_, ?_⟩ <;>
      · show (newMatcher (α := α) compile (.str p) s _).err = none ↔ _
        rw [newMatcher_str_def, hok]
        cases hms : reC.matchString s <;> simp [hms]
  · intro herr
    refine ⟨?_, ?_, ?_⟩ <;>
      · show (newMatcher (α := α) compile (.str p) s _).err = _
        rw [newMatcher_str_def, herr]
  · show (newMatcher (α := α) compile (.regex re) s _).err = none ↔ _
    rw [newMatcher_regex_def]
    cases hms : re.matchString s <;> simp [hms]
  · show (newMatcher (α := α) compile (.regex re) s _).err = none ↔ _
    rw [newMatcher_regex_def]
    cases hms : re.matchString s <;> simp [hms]
  · show (newMatcher (α := α) compile (.regex re) s _).err = none ↔ _
    rw [newMatcher_regex_def]
    cases hms : re.matchString s <;> simp [hms]

/-- Witness for C5 at the concrete compile function `c5compile`. -/
theorem C5_amended_witness :
    (matchesCheck (α := Unit) c5compile "x" (.str "x")).err = none ∧
    (matchesCheck (α := Unit) c5compile "zzz" (.str "(")).err
        = some (.badCheck ("cannot compile regexp: missing closing )")) ∧
    (matchesCheck (α := Unit) c5compile "xay" (.regex goRegexpLetterA)).err = none := by
  refine ⟨?_, ?_, ?_⟩
  · exact ((C5_amended c5compile "x" "x" c5reX c5reX "").1 rfl).1.mpr rfl
  · exact ((C5_amended c5compile "zzz" "(" c5reX c5reX
      "missing closing )").2.1 rfl).1
  · exact (C5_amended c5compile "xay" "q" goRegexpLetterA c5reX "").2.2.1.mpr rfl

/-- C7: in `CodecEquals` (and thus in its `JSONEquals` instantiation, which
fixes the codec to the JSON marshal/unmarshal pair), a failure to marshal the
expected value or to unmarshal the marshalled expected value is a bad check,
while a failure to unmarshal the obtained payload is an ordinary check
failure that does not satisfy `IsBadCheck`. -/
theorem C7_codec_error_kinds {α γ δ : Type} (marshal : α → Except String String)
    (unmarshal : String → Except String γ) (deepCheck : γ → γ → CheckResult δ)
    (got : String) (want : α) :
    (∀ e, marshal want = Except.error e →
        codecEqualCheck marshal unmarshal deepCheck got want
          = ⟨[], some (.badCheck ("cannot marshal expected contents: " ++ e))⟩) ∧
    (∀ wb e, marshal want = Except.ok wb → unmarshal wb = Except.error e →
        codecEqualCheck marshal unmarshal deepCheck got want
          = ⟨[], some (.badCheck ("cannot unmarshal expected contents: " ++ e))⟩) ∧
    (∀ wb wv e, marshal want = Except.ok wb → unmarshal wb = Except.ok wv →
        unmarshal got = Except.error e →
        codecEqualCheck marshal unmarshal deepCheck got want
            = ⟨[], some (.failure ("cannot unmarshal obtained contents: " ++ e
                ++ "; " ++ quoteGo got))⟩ ∧
        IsBadCheck (codecEqualCheck marshal unmarshal deepCheck got want).err
            = false) := by
  refine ⟨?_, ?_, ?_⟩
  · intro e he
    simp only [codecEqualCheck, he]
  · intro wb e hw hu
    simp only [codecEqualCheck, hw, hu]
  · intro wb wv e hw hu hg
    have hc : codecEqualCheck marshal unmarshal deepCheck got want
        = ⟨[], some (.failure ("cannot unmarshal obtained contents: " ++ e
            ++ "; " ++ quoteGo got))⟩ := by
      simp only [codecEqualCheck, hw, hu, hg]
    exact ⟨hc, by rw [hc]; rfl⟩

/-- Witness for C7 at concrete codec functions: a failing marshal, a codec
whose unmarshal accepts only the marshalled expected payload, and an
unparseable obtained payload. -/
theorem C7_codec_error_kinds_witness :
    codecEqualCheck (γ := Unit) (δ := Unit)
        (fun _ : Unit => Except.error "qt json marshal error")
        (fun _ => Except.ok ()) (fun _ _ => ⟨[], none⟩) "null" ()
      = ⟨[], some (.badCheck "cannot marshal expected contents: qt json marshal error")⟩ ∧
    codecEqualCheck (γ := Unit) (δ := Unit)
        (fun _ : Unit => Except.ok "WANT")
        (fun b => if b = "WANT" then Except.ok () else Except.error "invalid character")
        (fun _ _ => ⟨[], none⟩) "bad wolf" ()
      = ⟨[], some (.failure "cannot unmarshal obtained contents: invalid character; \"bad wolf\"")⟩ ∧
    IsBadCheck (codecEqualCheck (γ := Unit) (δ := Unit)
        (fun _ : Unit => Except.ok "WANT")
        (fun b => if b = "WANT" then Except.ok () else Except.error "invalid character")
        (fun _ _ => ⟨[], none⟩) "bad wolf" ()).err = false := by
  refine ⟨?_, ?_, ?_⟩
  · exact (C7_codec_error_kinds
      (fun _ : Unit => Except.error "qt json marshal error")
      (fun _ => Except.ok ()) (fun _ _ => ⟨[], none⟩) "null" ()).1
      "qt json marshal error" rfl
  · exact ((C7_codec_error_kinds
      (fun _ : Unit => Except.ok "WANT")
      (fun b => if b = "WANT" then Except.ok () else Except.error "invalid character")
      (fun _ _ => ⟨[], none⟩) "bad wolf" ()).2.2
      "WANT" () "invalid character" rfl rfl rfl).1
  · exact ((C7_codec_error_kinds
      (fun _ : Unit => Except.ok "WANT")
      (fun b => if b = "WANT" then Except.ok () else Except.error "invalid character")
      (fun _ _ => ⟨[], none⟩) "bad wolf" ()).2.2
      "WANT" () "invalid character" rfl rfl rfl).2

end qt
